import Mathlib

/-
  Verification development for the geocoding resolution pipeline of the
  repository: query validators, coordinate extraction, the resolution
  service (AddressService), and the token-bucket rate limiter.

  Modelling conventions (shallow embedding):
  * Python floats are modelled as exact rationals (ℚ).  For the bounded
    decimal literals the coordinate patterns admit (at most 3 integer
    digits), rational comparison against the range bounds agrees with
    IEEE-754 double comparison whenever the fractional part is short
    (≤ 12 digits); theorems that depend on this carry that proviso.
  * Python strings are Lean strings (sequences of Unicode scalar values);
    len, strip, split are modelled on that representation.
  * The regex classes \d and \w are modelled on their ASCII repertoire
    (the Hebrew block that the sanitizer whitelists is listed separately,
    exactly as in the source character class); \s is modelled as the full
    set of code points for which Python's str.isspace holds, which is also
    the set the re module matches for \s on str patterns.
  * The HTTP layer is an oracle: an environment of functions from request
    parameters to responses.  One trace entry is recorded per invocation
    of _fetch_from_api; an empty trace therefore means that neither the
    network nor the rate limiter was touched.
-/

namespace GeoStudio

/-- Whitespace test of Python: the code points for which str.isspace holds.
The re module matches the same set for the class backslash-s on str
patterns, and str.split splits on runs of exactly these characters. -/
def pySpace (c : Char) : Bool :=
  let n := c.toNat
  (decide (9 ≤ n) && decide (n ≤ 13)) || n == 32 ||
  (decide (28 ≤ n) && decide (n ≤ 31)) || n == 0x85 || n == 0xA0 ||
  n == 0x1680 || (decide (0x2000 ≤ n) && decide (n ≤ 0x200A)) ||
  n == 0x2028 || n == 0x2029 || n == 0x202F || n == 0x205F || n == 0x3000

/-- Python str.strip(): remove leading and trailing whitespace. -/
def pyStrip (l : List Char) : List Char :=
  ((l.dropWhile pySpace).reverse.dropWhile pySpace).reverse

/-- validation_config.MIN_QUERY_LENGTH (config.py). -/
def MIN_QUERY_LENGTH : Nat := 1

/-- validation_config.MAX_QUERY_LENGTH (config.py). -/
def MAX_QUERY_LENGTH : Nat := 500

/-- validation_config.MIN_LATITUDE (config.py). -/
def MIN_LATITUDE : ℚ := -90

/-- validation_config.MAX_LATITUDE (config.py). -/
def MAX_LATITUDE : ℚ := 90

/-- validation_config.MIN_LONGITUDE (config.py). -/
def MIN_LONGITUDE : ℚ := -180

/-- validation_config.MAX_LONGITUDE (config.py). -/
def MAX_LONGITUDE : ℚ := 180

/-- Typed failure kinds of exceptions.py.  All constructors except pyError
model subclasses of GeoServiceException; pyError stands for any other
Python exception (ValueError, AttributeError, ...). -/
inductive Err
  | validation
  | invalidCoordinates
  | locationNotFound (query : String)
  | rateLimitExceeded
  | apiConnection (msg : String)
  | invalidResponse
  | pyError
  deriving DecidableEq, Repr

/-- Test for membership in GeoServiceException (exceptions.py): every typed
kind derives from it; pyError does not. -/
def Err.isGeo : Err → Bool
  | .pyError => false
  | _ => true

/-- QueryValidator.validate (validators.py): empty check, strip, then
length bounds on the stripped query. -/
def QueryValidator.validate (query : String) : Except Err String :=
  if query.isEmpty then .error .validation
  else
    let q := pyStrip query.toList
    if q.length < MIN_QUERY_LENGTH then .error .validation
    else if q.length > MAX_QUERY_LENGTH then .error .validation
    else .ok (String.mk q)

/-- ASCII decimal digit: the repertoire of the regex class backslash-d
used by this model. -/
def isAsciiDigit (c : Char) : Bool := decide (48 ≤ c.toNat) && decide (c.toNat ≤ 57)

/-- Word character, the regex class backslash-w on its ASCII repertoire
(letters, digits, underscore). -/
def isWordChar (c : Char) : Bool := c.isAlpha || isAsciiDigit c || c == '_'

/-- The Hebrew Unicode block u0590-u05FF whitelisted by the sanitizer. -/
def isHebrew (c : Char) : Bool := decide (0x590 ≤ c.toNat) && decide (c.toNat ≤ 0x5FF)

/-- Membership in the sanitizer's whitelist character class (validators.py
line 40): word characters, whitespace, the Hebrew block, digits, double
quote, apostrophe, period, comma, parentheses, plus, minus. -/
def inWhitelist (c : Char) : Bool :=
  isWordChar c || pySpace c || isHebrew c || isAsciiDigit c ||
  c == '\x22' || c == '\x27' || c == '.' || c == ',' || c == '(' || c == ')' ||
  c == '+' || c == '-'

/-- One character step of the re.sub in QueryValidator.sanitize: a
character outside the whitelist becomes a space. -/
def replaceChar (c : Char) : Char := if inWhitelist c then c else ' '

/-- Helper for Python str.split(): accumulates the current word reversed;
words are emitted at whitespace boundaries, empty words are dropped. -/
def pySplitAux : List Char → List Char → List (List Char)
  | [], acc => if acc.isEmpty then [] else [acc.reverse]
  | c :: cs, acc =>
    if pySpace c then
      if acc.isEmpty then pySplitAux cs []
      else acc.reverse :: pySplitAux cs []
    else pySplitAux cs (c :: acc)

/-- Python str.split() with no argument: split on whitespace runs,
dropping empty pieces. -/
def pySplit (l : List Char) : List (List Char) := pySplitAux l []

/-- Python ' '.join: interpose a single space between the pieces. -/
def joinSp : List (List Char) → List Char
  | [] => []
  | [w] => w
  | w :: w2 :: ws => w ++ ' ' :: joinSp (w2 :: ws)

/-- The whitespace-collapsing step of sanitize: join(split()). -/
def collapse (l : List Char) : List Char := joinSp (pySplit l)

/-- QueryValidator.sanitize (validators.py): replace every character
outside the whitelist with a space, then collapse whitespace runs to
single spaces and trim. -/
def QueryValidator.sanitize (query : String) : String :=
  String.mk (collapse (query.toList.map replaceChar))

/-- CoordinateValidator.validate (validators.py): range checks against the
configured bounds.  The float() conversion of the source cannot fail for
inputs that are already numeric, which is the only way this model is
invoked, so only the range branches are modelled. -/
def CoordinateValidator.validate (lat lng : ℚ) : Except Err (ℚ × ℚ) :=
  if MIN_LATITUDE ≤ lat ∧ lat ≤ MAX_LATITUDE then
    if MIN_LONGITUDE ≤ lng ∧ lng ≤ MAX_LONGITUDE then .ok (lat, lng)
    else .error .invalidCoordinates
  else .error .invalidCoordinates

/-- Value of a list of decimal digit characters. -/
def digitsToNat (l : List Char) : Nat := l.foldl (fun a c => 10 * a + (c.toNat - 48)) 0

/-- Capture of one number token of the coordinate patterns:
an optional minus sign, 1 to 3 integer digits, an optional fractional
part (empty list = no fractional part). -/
structure NumTok where
  neg : Bool
  intPart : List Char
  fracPart : List Char
  deriving DecidableEq, Repr

/-- Exact rational value of a captured number token; this is the value
Python's float() assigns to the capture, modelled exactly. -/
def NumTok.val (t : NumTok) : ℚ :=
  let mag : ℚ := (digitsToNat t.intPart : ℚ) +
    (digitsToNat t.fracPart : ℚ) / ((10 : ℚ) ^ t.fracPart.length)
  if t.neg then -mag else mag

/-- Backtracking alternatives of the optional sign of a number token, in
the order the regex engine tries them: consume the sign first, then the
alternative that skips it (which can only succeed if a digit follows,
handled by the digit step). -/
def signTakes : List Char → List (Bool × List Char)
  | [] => [(false, [])]
  | c :: r =>
    if c == '-' then [(true, r), (false, c :: r)]
    else if c == '+' then [(false, r), (false, c :: r)]
    else [(false, c :: r)]

/-- Backtracking alternatives of the 1-to-3-digit integer part, greedy
first: take min(3, run) digits, then successively fewer, never zero. -/
def digitTakes (l : List Char) : List (List Char × List Char) :=
  let k := min 3 (l.takeWhile isAsciiDigit).length
  (List.range k).map (fun j => (l.take (k - j), l.drop (k - j)))

/-- Backtracking alternatives of the optional fractional part: a dot
followed by one or more digits, longest first; the final alternative
skips the group. -/
def fracTakes (l : List Char) : List (List Char × List Char) :=
  (match l with
   | c :: r =>
     if c == '.' then
       let k := (r.takeWhile isAsciiDigit).length
       (List.range k).map (fun j => (r.take (k - j), r.drop (k - j)))
     else []
   | [] => []) ++ [([], l)]

/-- All parses of a number token at the head of the input, paired with the
remainder, in regex backtracking priority order. -/
def numSplits (l : List Char) : List (NumTok × List Char) :=
  (signTakes l).flatMap (fun sg =>
    (digitTakes sg.2).flatMap (fun ds =>
      (fracTakes ds.2).map (fun fs => (NumTok.mk sg.1 ds.1 fs.1, fs.2))))

/-- Backtracking alternatives of a greedy whitespace run (the regex piece
backslash-s star): remainders after eating k leading whitespace
characters, longest k first, ending with the eat-nothing alternative. -/
def spaceStar : List Char → List (List Char)
  | [] => [[]]
  | c :: cs => if pySpace c then spaceStar cs ++ [c :: cs] else [c :: cs]

/-- The separator class of the coordinate patterns: a comma or a
whitespace character. -/
def isSep (c : Char) : Bool := c == ',' || pySpace c

/-- Backtracking alternatives of one-or-more separator characters, greedy
first. -/
def sepPlus : List Char → List (List Char)
  | [] => []
  | c :: cs => if isSep c then sepPlus cs ++ [cs] else []

/-- Matcher for the bare coordinate pair pattern of
CoordinateValidator.parse_from_query (validators.py line 94): optional
leading whitespace, a number, optional whitespace, one separator,
optional whitespace, a number, optional whitespace, end of input.  The
pattern is applied to the stripped query, on which the dollar anchor is
exactly end-of-input.  Returns the two captures of the first successful
parse in regex backtracking order. -/
def matchBarePair (l : List Char) : Option (NumTok × NumTok) :=
  (spaceStar l).findSome? (fun r1 =>
    (numSplits r1).findSome? (fun p1 =>
      (spaceStar p1.2).findSome? (fun r3 =>
        match r3 with
        | [] => none
        | c :: r4 =>
          if isSep c then
            (spaceStar r4).findSome? (fun r5 =>
              (numSplits r5).findSome? (fun p2 =>
                (spaceStar p2.2).findSome? (fun r7 =>
                  if r7.isEmpty then some (p1.1, p2.1) else none)))
          else none)))

/-- Case-insensitive comparison of an input character against a lowercase
ASCII pattern character (the source compiles its patterns with
re.IGNORECASE, and the literal letters of its patterns are ASCII): the
input matches if it equals the pattern or is the uppercase ASCII letter
whose lowercase form is the pattern. -/
def ciEq (c p : Char) : Bool :=
  c == p || (decide (65 ≤ c.toNat) && decide (c.toNat ≤ 90) && (c.toNat + 32 == p.toNat))

/-- Case-insensitive literal match; the pattern argument is given
lowercase. -/
def matchCI : List Char → List Char → Option (List Char)
  | [], l => some l
  | _ :: _, [] => none
  | p :: ps, c :: cs => if ciEq c p then matchCI ps cs else none

/-- Backtracking alternatives of the latitude label `lat` with optional
`itude`, greedy first. -/
def labelLatTakes (l : List Char) : List (List Char) :=
  match matchCI ['l', 'a', 't'] l with
  | none => []
  | some r =>
    match matchCI ['i', 't', 'u', 'd', 'e'] r with
    | some r2 => [r2, r]
    | none => [r]

/-- Alternatives of the longitude label alternation, in pattern order:
`lon`, then `lng`, then `longitude`. -/
def lonAltTakes (l : List Char) : List (List Char) :=
  (match matchCI ['l', 'o', 'n'] l with | some r => [r] | none => []) ++
  (match matchCI ['l', 'n', 'g'] l with | some r => [r] | none => []) ++
  (match matchCI ['l', 'o', 'n', 'g', 'i', 't', 'u', 'd', 'e'] l with
   | some r => [r] | none => [])

/-- The label-value separator class of the labeled pattern: colon or
equals sign. -/
def isColonEq (c : Char) : Bool := c == ':' || c == '='

/-- Matcher for the labeled coordinate pair pattern of
CoordinateValidator.parse_from_query (validators.py lines 96-97):
`lat` or `latitude`, colon or equals, a number, separators, `lon`, `lng`
or `longitude`, colon or equals, a number; whitespace allowed as in the
pattern; applied to the stripped query. -/
def matchLabeledPair (l : List Char) : Option (NumTok × NumTok) :=
  (spaceStar l).findSome? (fun r0 =>
    (labelLatTakes r0).findSome? (fun r1 =>
      (spaceStar r1).findSome? (fun r2 =>
        match r2 with
        | [] => none
        | c :: r3 =>
          if isColonEq c then
            (spaceStar r3).findSome? (fun r4 =>
              (numSplits r4).findSome? (fun p1 =>
                (spaceStar p1.2).findSome? (fun r6 =>
                  (sepPlus r6).findSome? (fun r7 =>
                    (lonAltTakes r7).findSome? (fun r8 =>
                      (spaceStar r8).findSome? (fun r9 =>
                        match r9 with
                        | [] => none
                        | c2 :: r10 =>
                          if isColonEq c2 then
                            (spaceStar r10).findSome? (fun r11 =>
                              (numSplits r11).findSome? (fun p2 =>
                                (spaceStar p2.2).findSome? (fun r13 =>
                                  if r13.isEmpty then some (p1.1, p2.1)
                                  else none)))
                          else none))))))
          else none)))

/-- CoordinateValidator.parse_from_query (validators.py): strip the query,
try the bare pattern then the labeled pattern; on the first match, range
validate the two captures; a range failure raises when strict and yields
None otherwise; no match yields None. -/
def CoordinateValidator.parse_from_query (query : String) (strict : Bool) :
    Except Err (Option (ℚ × ℚ)) :=
  let nq := pyStrip query.toList
  match matchBarePair nq with
  | some p =>
    (match CoordinateValidator.validate p.1.val p.2.val with
     | .ok q => .ok (some q)
     | .error e => if strict then .error e else .ok none)
  | none =>
    match matchLabeledPair nq with
    | some p =>
      (match CoordinateValidator.validate p.1.val p.2.val with
       | .ok q => .ok (some q)
       | .error e => if strict then .error e else .ok none)
    | none => .ok none

/-- Partial model of Python's float(str) builtin, used by the fallback
branch of the search flow (app.py line 258): optional surrounding
whitespace, optional sign, decimal digits with an optional fractional
part, and an optional exponent.  The inf/nan spellings and digit-group
underscores that float() also accepts are outside this model. -/
def pyFloat (s : String) : Option ℚ :=
  let l := pyStrip s.toList
  let sg : Bool × List Char :=
    match l with
    | '-' :: r => (true, r)
    | '+' :: r => (false, r)
    | _ => (false, l)
  let ip := sg.2.takeWhile isAsciiDigit
  let l2 := sg.2.dropWhile isAsciiDigit
  let fr : List Char × List Char :=
    match l2 with
    | '.' :: r => (r.takeWhile isAsciiDigit, r.dropWhile isAsciiDigit)
    | _ => ([], l2)
  if ip.isEmpty && fr.1.isEmpty then none
  else
    let mag : ℚ := (digitsToNat ip : ℚ) + (digitsToNat fr.1 : ℚ) / ((10 : ℚ) ^ fr.1.length)
    let mant : ℚ := if sg.1 then -mag else mag
    match fr.2 with
    | [] => some mant
    | e :: r =>
      if e == 'e' || e == 'E' then
        let es : Bool × List Char :=
          match r with
          | '-' :: r2 => (true, r2)
          | '+' :: r2 => (false, r2)
          | _ => (false, r)
        let ed := es.2.takeWhile isAsciiDigit
        if ed.isEmpty || !(es.2.dropWhile isAsciiDigit).isEmpty then none
        else
          let ex : ℤ := if es.1 then -(digitsToNat ed : ℤ) else (digitsToNat ed : ℤ)
          some (mant * (10 : ℚ) ^ ex)
      else none

/-- Value stored in the lat or lng field of a LocationData before the
source applies str(): either str() of a Python float (which round-trips,
so it is modelled by the float's exact value), or str() of a string taken
verbatim from the API response (identity). -/
inductive CoordVal
  | fromFloat (value : ℚ)
  | raw (text : String)
  deriving DecidableEq, Repr

/-- The numeric value the stored coordinate text parses back to, if any:
a fromFloat field parses to the value it was printed from; a raw field
parses as float() would parse the verbatim text. -/
def CoordVal.parsed : CoordVal → Option ℚ
  | .fromFloat v => some v
  | .raw s => pyFloat s

/-- LocationData (app.py): the result record of a resolution. -/
structure LocationData where
  original_query : String
  address : String
  zip_code : String
  lat : CoordVal
  lng : CoordVal
  status : String
  error_msg : String
  timestamp : String
  deriving DecidableEq, Repr

/-- Payload of a reverse-geocode fetch as the service consumes it:
pyNone is any falsy payload (None or an empty mapping), malformed is a
truthy payload that is not a mapping, dict is a truthy mapping with its
display_name value and its nested address.postcode value when present. -/
inductive RevResp
  | pyNone
  | malformed
  | dict (display_name : Option String) (postcode : Option String)
  deriving DecidableEq, Repr

/-- One element of a search response list, with the fields the service
reads: lat, lon, display_name, and the nested address.postcode. -/
structure OsmItem where
  lat : Option String
  lon : Option String
  display_name : Option String
  postcode : Option String
  deriving DecidableEq, Repr

/-- Payload of a search fetch: pyNone is a falsy non-list payload,
malformed a truthy payload that is not a list, items a list (possibly
empty, which the caller treats as falsy). -/
inductive SearchResp
  | pyNone
  | malformed
  | items (l : List OsmItem)
  deriving DecidableEq, Repr

/-- Environment: the oracle for _fetch_from_api, keyed by call site.
revMain serves the reverse fetch of _reverse_geocode (validated floats,
format=json); revEnrich serves the postal-code enrichment fetch of the
search flow (verbatim item strings, addressdetails=1); searchApi serves
the search-endpoint fetch.  An error is whatever _fetch_from_api raised.
ts stands for the wall-clock timestamp string. -/
structure Env where
  revMain : ℚ → ℚ → Except Err RevResp
  revEnrich : String → String → Except Err RevResp
  searchApi : String → Except Err SearchResp
  ts : String

/-- One recorded _fetch_from_api invocation.  Each invocation acquires
the rate limiter (unless served from cache), so an empty trace means no
network call and no limiter acquisition. -/
inductive ApiCall
  | revMain (lat lng : ℚ)
  | revEnrich (lat lng : String)
  | searchCall (q : String)
  deriving DecidableEq, Repr

/-- Python truthiness of an optional string field read with .get:
a missing key and an empty string are both falsy. -/
def truthyStr : Option String → Bool
  | none => false
  | some s => !s.isEmpty

/-- The except chain of _reverse_geocode (app.py lines 171-175): a
GeoServiceException is re-raised, anything else is wrapped. -/
def reverseWrap (e : Err) : Err :=
  if e.isGeo then e else .apiConnection "Reverse geocoding failed"

/-- The except chain of AddressService.search (app.py lines 268-272): a
GeoServiceException is re-raised, anything else is wrapped. -/
def searchWrap (e : Err) : Err :=
  if e.isGeo then e else .apiConnection "Search failed"

/-- AddressService._reverse_geocode (app.py): validate the coordinate
ranges, fetch the reverse endpoint, require a truthy payload, validate
its shape (a mapping containing display_name), and build exactly one
LocationData whose lat and lng are str() of the validated floats and
whose postal code defaults to the em-dash sentinel when absent. -/
def AddressService.reverseGeocode (env : Env) (lat lng : ℚ) (query : String) :
    Except Err (List LocationData) × List ApiCall :=
  match CoordinateValidator.validate lat lng with
  | .error e => (.error (reverseWrap e), [])
  | .ok lv =>
    match env.revMain lv.1 lv.2 with
    | .error e => (.error (reverseWrap e), [.revMain lv.1 lv.2])
    | .ok .pyNone => (.error (reverseWrap (.locationNotFound query)), [.revMain lv.1 lv.2])
    | .ok .malformed => (.error (reverseWrap .validation), [.revMain lv.1 lv.2])
    | .ok (.dict dn pc) =>
      match dn with
      | none => (.error (reverseWrap .validation), [.revMain lv.1 lv.2])
      | some addr =>
        (.ok [LocationData.mk query addr (pc.getD "—") (CoordVal.fromFloat lv.1)
          (CoordVal.fromFloat lv.2) "OK" "" env.ts], [.revMain lv.1 lv.2])

/-- Body of the per-item loop of AddressService.search (app.py lines
219-260).  Direct path: truthy lat, lon and display_name emit one result,
with a postal-code enrichment fetch when the item's postcode is falsy,
any failure of which degrades the postal code to the sentinel; the
constructor argument replaces an empty postal code by the sentinel.
Fallback path: truthy lat and lon without a display name convert the
strings with float() and run the full reverse geocode.  Otherwise the
item is skipped. -/
def AddressService.processItem (env : Env) (query : String) (item : OsmItem) :
    Except Err (List LocationData) × List ApiCall :=
  if truthyStr item.lat && truthyStr item.lon && truthyStr item.display_name then
    let la := item.lat.getD ""
    let ln := item.lon.getD ""
    let addr := item.display_name.getD ""
    let zip0 := item.postcode.getD ""
    let enriched : String × List ApiCall :=
      if zip0.isEmpty then
        match env.revEnrich la ln with
        | .ok (.dict _ pc) => (pc.getD "—", [.revEnrich la ln])
        | .ok .malformed => ("—", [.revEnrich la ln])
        | .ok .pyNone => (zip0, [.revEnrich la ln])
        | .error _ => ("—", [.revEnrich la ln])
      else (zip0, [])
    (.ok [LocationData.mk query addr (if enriched.1.isEmpty then "—" else enriched.1)
      (CoordVal.raw la) (CoordVal.raw ln) "OK" "" env.ts], enriched.2)
  else if truthyStr item.lat && truthyStr item.lon then
    match pyFloat (item.lat.getD ""), pyFloat (item.lon.getD "") with
    | some f1, some f2 => AddressService.reverseGeocode env f1 f2 query
    | _, _ => (.error .pyError, [])
  else (.ok [], [])

/-- The result-accumulation loop of AddressService.search over the search
response items, in order; an exception inside the loop aborts it. -/
def AddressService.processItems (env : Env) (query : String) :
    List OsmItem → Except Err (List LocationData) × List ApiCall
  | [] => (.ok [], [])
  | item :: rest =>
    match AddressService.processItem env query item with
    | (.error e, calls) => (.error e, calls)
    | (.ok rs, calls) =>
      match AddressService.processItems env query rest with
      | (.error e, calls2) => (.error e, calls ++ calls2)
      | (.ok rs2, calls2) => (.ok (rs ++ rs2), calls ++ calls2)

/-- AddressService.search (app.py): validate and sanitize the raw query,
try strict coordinate extraction (reverse flow on success), otherwise
fetch the search endpoint, require a truthy list, process the items, and
fail with LocationNotFoundError when nothing was accumulated.  Errors
pass through the except chain modelled by searchWrap. -/
def AddressService.search (env : Env) (raw_query : String) :
    Except Err (List LocationData) × List ApiCall :=
  match QueryValidator.validate raw_query with
  | .error e => (.error (searchWrap e), [])
  | .ok q0 =>
    let query := QueryValidator.sanitize q0
    match CoordinateValidator.parse_from_query query true with
    | .error e => (.error (searchWrap e), [])
    | .ok (some c) =>
      let r := AddressService.reverseGeocode env c.1 c.2 query
      (match r.1 with
       | .error e => .error (searchWrap e)
       | .ok v => .ok v, r.2)
    | .ok none =>
      match env.searchApi query with
      | .error e => (.error (searchWrap e), [.searchCall query])
      | .ok .pyNone => (.error (searchWrap (.locationNotFound query)), [.searchCall query])
      | .ok .malformed => (.error (searchWrap .validation), [.searchCall query])
      | .ok (.items its) =>
        if its.isEmpty then
          (.error (searchWrap (.locationNotFound query)), [.searchCall query])
        else
          match AddressService.processItems env query its with
          | (.error e, calls) => (.error (searchWrap e), .searchCall query :: calls)
          | (.ok results, calls) =>
            if results.isEmpty then
              (.error (searchWrap (.locationNotFound query)), .searchCall query :: calls)
            else (.ok results, .searchCall query :: calls)

/-- State of TokenBucketRateLimiter (rate_limiter.py): the token count
and the time of the last refill. -/
structure RLState where
  tokens : ℚ
  lastUpdate : ℚ
  deriving DecidableEq, Repr

/-- TokenBucketRateLimiter._add_tokens at wall-clock time now: credit
elapsed * rate tokens, capped at the capacity, and record the time. -/
def addTokens (cap rate now : ℚ) (s : RLState) : RLState :=
  RLState.mk (min cap (s.tokens + (now - s.lastUpdate) * rate)) now

/-- TokenBucketRateLimiter.acquire, with the wall-clock times of its two
lock sections passed explicitly: t1 when the call starts, t2 after the
sleep (only read on the blocking slow path).  The third component records
the sleep: none if no sleep happened, some d for a single sleep of d
seconds; the structure of the definition shows there is at most one. -/
def acquire (cap rate : ℚ) (blocking : Bool) (t1 t2 : ℚ) (s : RLState) :
    Bool × RLState × Option ℚ :=
  let s1 := addTokens cap rate t1 s
  if 1 ≤ s1.tokens then (true, RLState.mk (s1.tokens - 1) s1.lastUpdate, none)
  else if !blocking then (false, s1, none)
  else
    let w := (1 - s1.tokens) / rate
    let s2 := addTokens cap rate t2 s1
    if 1 ≤ s2.tokens then (true, RLState.mk (s2.tokens - 1) s2.lastUpdate, some w)
    else (false, s2, some w)

/-- Low-level outcome of the requests.get call inside _fetch_from_api:
a timeout, another connection-level failure, or an HTTP response with a
status code and a flag saying whether its body is parseable JSON. -/
inductive HttpEvent
  | timeout
  | connFailure
  | response (status : Nat) (parseable : Bool)
  deriving DecidableEq, Repr

/-- Exceptions that can leave the try block of _fetch_from_api. -/
inductive PyExc
  | reqTimeout
  | reqHTTPError (code : Nat)
  | reqJSONDecodeError
  | reqOther
  | geoRateLimit
  deriving DecidableEq, Repr

/-- Membership in requests.Timeout. -/
def PyExc.isTimeout : PyExc → Bool
  | .reqTimeout => true
  | _ => false

/-- Membership in requests.HTTPError. -/
def PyExc.isHTTPError : PyExc → Bool
  | .reqHTTPError _ => true
  | _ => false

/-- Membership in requests.RequestException.  Timeout and HTTPError
subclass it.  Since requests 2.27.0, response.json() on an unparseable
body raises requests.exceptions.JSONDecodeError, which subclasses
InvalidJSONError, itself a RequestException, so it is a member too.  The
service's own GeoServiceException kinds are not. -/
def PyExc.isRequestException : PyExc → Bool
  | .geoRateLimit => false
  | _ => true

/-- Membership in json.JSONDecodeError: requests' JSONDecodeError also
subclasses the standard-library class. -/
def PyExc.isJSONDecodeError : PyExc → Bool
  | .reqJSONDecodeError => true
  | _ => false

/-- The try block of _fetch_from_api (app.py lines 77-98): a 429 status
raises RateLimitExceededError, raise_for_status raises HTTPError for
status 400-599, then the body is parsed; an unparseable body raises the
requests JSONDecodeError. -/
def fetchTryBody (ev : HttpEvent) : Except PyExc Unit :=
  match ev with
  | .timeout => .error .reqTimeout
  | .connFailure => .error .reqOther
  | .response s p =>
    if s == 429 then .error .geoRateLimit
    else if decide (400 ≤ s) && decide (s < 600) then .error (.reqHTTPError s)
    else if p then .ok () else .error .reqJSONDecodeError

/-- The except chain of _fetch_from_api (app.py lines 100-120), in source
order: requests.Timeout, then requests.HTTPError, then
requests.RequestException, then json.JSONDecodeError; an exception caught
by no clause propagates. -/
def fetchFromApi (ev : HttpEvent) : Except Err Unit :=
  match fetchTryBody ev with
  | .ok u => .ok u
  | .error e =>
    if e.isTimeout then .error (.apiConnection "Request timed out")
    else if e.isHTTPError then .error (.apiConnection "HTTP error")
    else if e.isRequestException then .error (.apiConnection "Request failed")
    else if e.isJSONDecodeError then .error .invalidResponse
    else
      match e with
      | .geoRateLimit => .error .rateLimitExceeded
      | _ => .error .pyError

/-- Invariant of the rate-limiter state claimed by the data-model section:
the token count stays within the closed interval from zero to the
capacity. -/
def RLinv (cap : ℚ) (s : RLState) : Prop := 0 ≤ s.tokens ∧ s.tokens ≤ cap

/-- Concrete environment for example instantiations: every fetch fails. -/
def envFail : Env :=
  Env.mk (fun _ _ => .error .rateLimitExceeded) (fun _ _ => .error .rateLimitExceeded)
    (fun _ => .error .rateLimitExceeded) "T"

/-- Concrete environment whose search endpoint returns one item carrying
an out-of-range latitude string together with a display name and a
postal code. -/
def envC1 : Env :=
  Env.mk (fun _ _ => .error .rateLimitExceeded) (fun _ _ => .error .rateLimitExceeded)
    (fun _ => .ok (.items [OsmItem.mk (some "999") (some "35") (some "Nowhere St") (some "12345")]))
    "T"

/-- The result the search flow emits for envC1. -/
def locC1 : LocationData :=
  LocationData.mk "Nowhere" "Nowhere St" "12345" (CoordVal.raw "999") (CoordVal.raw "35")
    "OK" "" "T"

/-- Concrete environment whose reverse endpoint answers with an address
and a postal code. -/
def envRev : Env :=
  Env.mk (fun _ _ => .ok (.dict (some "Addr") (some "12345")))
    (fun _ _ => .ok (.dict (some "Addr") (some "12345")))
    (fun _ => .error .rateLimitExceeded) "T"

/-- The result the reverse flow emits for envRev at latitude 31 and
longitude 35. -/
def locRev : LocationData :=
  LocationData.mk "q" "Addr" "12345" (CoordVal.fromFloat 31) (CoordVal.fromFloat 35) "OK" "" "T"

/-- Concrete environment whose search endpoint returns one complete item,
used to show a labeled-pair query reaching the search flow. -/
def envC4 : Env :=
  Env.mk (fun _ _ => .error .rateLimitExceeded) (fun _ _ => .error .rateLimitExceeded)
    (fun _ => .ok (.items [OsmItem.mk (some "31.5") (some "35.2") (some "X") (some "123")]))
    "T"

/-- The result the search flow emits for envC4. -/
def locC4 : LocationData :=
  LocationData.mk "lat 31.5, lon 35.2" "X" "123" (CoordVal.raw "31.5") (CoordVal.raw "35.2")
    "OK" "" "T"

/-- Concrete environment whose search endpoint returns an item lacking a
display name and whose reverse endpoint returns an empty-string postal
code. -/
def envC5 : Env :=
  Env.mk (fun _ _ => .ok (.dict (some "Addr") (some "")))
    (fun _ _ => .error .pyError)
    (fun _ => .ok (.items [OsmItem.mk (some "31.5") (some "35.2") none none])) "T"

/-- The result the search flow emits for envC5: the fallback reverse path
copies the empty-string postal code verbatim.  The coordinate values are
written in the digit-wise form float() produces for "31.5" and "35.2". -/
def locC5 : LocationData :=
  LocationData.mk "Nowhere" "Addr" "" (CoordVal.fromFloat ((31 : ℚ) + 5 / 10 ^ 1))
    (CoordVal.fromFloat ((35 : ℚ) + 2 / 10 ^ 1)) "OK" "" "T"

/-- The single search item of envC5. -/
def itemC5 : OsmItem := OsmItem.mk (some "31.5") (some "35.2") none none

/-- Concrete environment for the fallback-failure scenario: the search
endpoint returns one complete item followed by one item without a
display name, and the main reverse endpoint fails. -/
def envC10 : Env :=
  Env.mk (fun _ _ => .error .rateLimitExceeded)
    (fun _ _ => .ok (.dict (some "A") (some "99")))
    (fun _ => .ok (.items [OsmItem.mk (some "31") (some "35") (some "Good St") (some "11"),
      OsmItem.mk (some "31.5") (some "35.2") none none])) "T"

/-- The item of envC10 that the direct path accepts. -/
def itemGood : OsmItem := OsmItem.mk (some "31") (some "35") (some "Good St") (some "11")

/-- The item of envC10 that triggers the fallback reverse geocode. -/
def itemBad : OsmItem := OsmItem.mk (some "31.5") (some "35.2") none none

/-- The result the search flow emits for envC4 when queried with an
address string. -/
def locC4b : LocationData :=
  LocationData.mk "Somewhere" "X" "123" (CoordVal.raw "31.5") (CoordVal.raw "35.2") "OK" "" "T"

/-- The result the direct path emits for the first item of envC10. -/
def locC10 : LocationData :=
  LocationData.mk "Nowhere" "Good St" "11" (CoordVal.raw "31") (CoordVal.raw "35") "OK" "" "T"

/-- C2: the claim fails on the code.  At a 2xx response whose body is not
valid JSON, response.json() raises the requests-level JSONDecodeError,
which subclasses RequestException (requests 2.27.0 and later); the
RequestException clause of _fetch_from_api precedes the
json.JSONDecodeError clause, so the fetch fails with APIConnectionError
and the clause that would raise InvalidResponseError is unreachable. -/
theorem c2_bad_json_yields_apiconnection :
    fetchFromApi (.response 200 false) = .error (.apiConnection "Request failed") ∧
    fetchFromApi (.response 200 false) ≠ .error .invalidResponse := by
  constructor
  · rfl
  · intro h
    exact absurd (Except.error.inj h) (by decide)

/-- C6: a raw query that is empty, or whose stripped form is empty
(whitespace-only, hence shorter than the one-character minimum) or longer
than the 500-character maximum, fails with ValidationError and the
returned trace is empty, so no fetch happened: neither the network nor
the rate limiter was touched. -/
theorem c6_bad_length_validation_error (env : Env) (raw : String)
    (h : pyStrip raw.toList = [] ∨ MAX_QUERY_LENGTH < (pyStrip raw.toList).length) :
    AddressService.search env raw = (.error .validation, []) := by
  have hval : QueryValidator.validate raw = .error .validation := by
    unfold QueryValidator.validate
    by_cases he : raw.isEmpty
    · rw [if_pos he]
    · rw [if_neg he]
      show (if (pyStrip raw.toList).length < MIN_QUERY_LENGTH then
          (.error .validation : Except Err String)
        else if (pyStrip raw.toList).length > MAX_QUERY_LENGTH then .error .validation
        else .ok (String.mk (pyStrip raw.toList))) = .error .validation
      rcases h with h | h
      · rw [if_pos (show (pyStrip raw.toList).length < MIN_QUERY_LENGTH by rw [h]; decide)]
      · rw [if_neg (show ¬ (pyStrip raw.toList).length < MIN_QUERY_LENGTH by
          unfold MIN_QUERY_LENGTH
          unfold MAX_QUERY_LENGTH at h
          omega)]
        rw [if_pos (show (pyStrip raw.toList).length > MAX_QUERY_LENGTH from h)]
  unfold AddressService.search
  rw [hval]
  rfl

/-- Witness for C6 at the empty query. -/
theorem c6_witness :
    AddressService.search envFail "" = (.error .validation, []) :=
  c6_bad_length_validation_error envFail "" (Or.inl rfl)

/-- C7: acquire when no whole token is available after the initial
refill.  Non-blocking: returns false at once, records no sleep, and the
state is exactly the refilled state (nothing consumed).  Blocking:
records exactly one sleep, of (1 - tokens) / rate seconds, then refills
at the wake-up time and makes one more consumption attempt, succeeding
exactly when that second refill reaches one token — no retry loop. -/
theorem c7_acquire_exhausted (cap rate t1 t2 : ℚ) (s : RLState)
    (h : (addTokens cap rate t1 s).tokens < 1) :
    acquire cap rate false t1 t2 s = (false, addTokens cap rate t1 s, none) ∧
    (acquire cap rate true t1 t2 s).2.2 =
      some ((1 - (addTokens cap rate t1 s).tokens) / rate) ∧
    ((acquire cap rate true t1 t2 s).1 = true ↔
      1 ≤ (addTokens cap rate t2 (addTokens cap rate t1 s)).tokens) := by
  have h' : ¬ 1 ≤ (addTokens cap rate t1 s).tokens := not_le.mpr h
  refine ⟨?_, ?_, ?_⟩
  · unfold acquire
    simp [h']
  · unfold acquire
    by_cases hc : 1 ≤ (addTokens cap rate t2 (addTokens cap rate t1 s)).tokens
    · simp [h', hc]
    · simp [h', hc]
  · unfold acquire
    by_cases hc : 1 ≤ (addTokens cap rate t2 (addTokens cap rate t1 s)).tokens
    · simp [h', hc]
    · simp [h', hc]

/-- Witness for C7: an empty bucket with no elapsed time, non-blocking. -/
theorem c7_witness :
    acquire 1 1 false 0 1 (RLState.mk 0 0) = (false, addTokens 1 1 0 (RLState.mk 0 0), none) :=
  (c7_acquire_exhausted 1 1 0 1 (RLState.mk 0 0) (by norm_num [addTokens])).1

/-- C8: the token count stays within [0, capacity]: the invariant holds
in the initial state (tokens = capacity), is preserved by every refill
with a non-decreasing clock, and is preserved by every acquire call,
blocking or not. -/
theorem c8_tokens_invariant (cap rate : ℚ) (hcap : 1 ≤ cap) (hrate : 0 < rate) :
    (∀ t0 : ℚ, RLinv cap (RLState.mk cap t0)) ∧
    (∀ (s : RLState) (now : ℚ), RLinv cap s → s.lastUpdate ≤ now →
      RLinv cap (addTokens cap rate now s)) ∧
    (∀ (s : RLState) (b : Bool) (t1 t2 : ℚ), RLinv cap s → s.lastUpdate ≤ t1 → t1 ≤ t2 →
      RLinv cap (acquire cap rate b t1 t2 s).2.1) := by
  have hadd : ∀ (s : RLState) (now : ℚ), RLinv cap s → s.lastUpdate ≤ now →
      RLinv cap (addTokens cap rate now s) := by
    intro s now hs hle
    constructor
    · apply le_min
      · linarith
      · have hm : 0 ≤ (now - s.lastUpdate) * rate :=
          mul_nonneg (by linarith) (le_of_lt hrate)
        have := hs.1
        simp only [addTokens] at hm ⊢
        linarith
    · exact min_le_left _ _
  refine ⟨?_, hadd, ?_⟩
  · intro t0
    exact ⟨by linarith, le_refl _⟩
  · intro s b t1 t2 hs h1 h2
    have hs1 := hadd s t1 hs h1
    have hlu : (addTokens cap rate t1 s).lastUpdate = t1 := rfl
    have hs2 := hadd (addTokens cap rate t1 s) t2 hs1 (by rw [hlu]; exact h2)
    unfold acquire
    by_cases hc1 : 1 ≤ (addTokens cap rate t1 s).tokens
    · simp only [hc1, if_true]
      constructor
      · show (0 : ℚ) ≤ (addTokens cap rate t1 s).tokens - 1
        linarith
      · show (addTokens cap rate t1 s).tokens - 1 ≤ cap
        linarith [hs1.2]
    · by_cases hb : b
      · by_cases hc2 : 1 ≤ (addTokens cap rate t2 (addTokens cap rate t1 s)).tokens
        · simp only [hc1, if_false, hb, hc2, if_true]
          simp only [Bool.not_true]
          constructor
          · show (0 : ℚ) ≤ (addTokens cap rate t2 (addTokens cap rate t1 s)).tokens - 1
            linarith
          · show (addTokens cap rate t2 (addTokens cap rate t1 s)).tokens - 1 ≤ cap
            linarith [hs2.2]
        · simp only [hc1, if_false, hb, hc2]
          simp only [Bool.not_true]
          exact hs2
      · simp only [hc1, if_false, hb]
        simp only [Bool.not_false]
        exact hs1

/-- Witness for C8: one blocking acquire from the full default bucket. -/
theorem c8_witness : RLinv 1 (acquire 1 1 true 0 1 (RLState.mk 1 0)).2.1 :=
  (c8_tokens_invariant 1 1 (le_refl 1) (by norm_num)).2.2 (RLState.mk 1 0) true 0 1
    ⟨by norm_num, le_refl 1⟩ (le_refl 0) (by norm_num)

/-- Unfolding lemma: parse_from_query with its let binding expanded. -/
theorem parse_from_query_eq (query : String) (strict : Bool) :
    CoordinateValidator.parse_from_query query strict =
      (match matchBarePair (pyStrip query.toList) with
       | some p =>
         (match CoordinateValidator.validate p.1.val p.2.val with
          | .ok c => .ok (some c)
          | .error e => if strict then .error e else .ok none)
       | none =>
         (match matchLabeledPair (pyStrip query.toList) with
          | some p =>
            (match CoordinateValidator.validate p.1.val p.2.val with
             | .ok c => .ok (some c)
             | .error e => if strict then .error e else .ok none)
          | none => .ok none)) := rfl

/-- Unfolding lemma: AddressService.search with its let bindings
expanded. -/
theorem search_eq (env : Env) (raw_query : String) :
    AddressService.search env raw_query =
      (match QueryValidator.validate raw_query with
       | .error e => (.error (searchWrap e), [])
       | .ok q0 =>
         match CoordinateValidator.parse_from_query (QueryValidator.sanitize q0) true with
         | .error e => (.error (searchWrap e), [])
         | .ok (some c) =>
           (match (AddressService.reverseGeocode env c.1 c.2 (QueryValidator.sanitize q0)).1 with
            | .error e => .error (searchWrap e)
            | .ok v => .ok v,
            (AddressService.reverseGeocode env c.1 c.2 (QueryValidator.sanitize q0)).2)
         | .ok none =>
           match env.searchApi (QueryValidator.sanitize q0) with
           | .error e => (.error (searchWrap e), [.searchCall (QueryValidator.sanitize q0)])
           | .ok .pyNone => (.error (searchWrap (.locationNotFound (QueryValidator.sanitize q0))),
               [.searchCall (QueryValidator.sanitize q0)])
           | .ok .malformed => (.error (searchWrap .validation),
               [.searchCall (QueryValidator.sanitize q0)])
           | .ok (.items its) =>
             if its.isEmpty then
               (.error (searchWrap (.locationNotFound (QueryValidator.sanitize q0))),
                 [.searchCall (QueryValidator.sanitize q0)])
             else
               match AddressService.processItems env (QueryValidator.sanitize q0) its with
               | (.error e, calls) => (.error (searchWrap e),
                   .searchCall (QueryValidator.sanitize q0) :: calls)
               | (.ok results, calls) =>
                 if results.isEmpty then
                   (.error (searchWrap (.locationNotFound (QueryValidator.sanitize q0))),
                     .searchCall (QueryValidator.sanitize q0) :: calls)
                 else (.ok results, .searchCall (QueryValidator.sanitize q0) :: calls)) := rfl

/-- C3: an input whose processed query matches the bare numeric pair
pattern with an out-of-range capture fails with InvalidCoordinatesError
and issues no fetch at all (empty trace), in particular no address
search.  The fractional-length proviso marks the envelope in which the
exact-rational model of float() agrees with IEEE-754 doubles near the
range boundaries. -/
theorem c3_bare_out_of_range (env : Env) (raw q : String) (t1 t2 : NumTok)
    (hv : QueryValidator.validate raw = .ok q)
    (hm : matchBarePair (pyStrip (QueryValidator.sanitize q).toList) = some (t1, t2))
    (_hfrac : t1.fracPart.length ≤ 12 ∧ t2.fracPart.length ≤ 12)
    (hout : ¬(MIN_LATITUDE ≤ t1.val ∧ t1.val ≤ MAX_LATITUDE) ∨
            ¬(MIN_LONGITUDE ≤ t2.val ∧ t2.val ≤ MAX_LONGITUDE)) :
    AddressService.search env raw = (.error .invalidCoordinates, []) := by
  have hval2 : CoordinateValidator.validate t1.val t2.val = .error .invalidCoordinates := by
    unfold CoordinateValidator.validate
    by_cases h1 : MIN_LATITUDE ≤ t1.val ∧ t1.val ≤ MAX_LATITUDE
    · rcases hout with ho | ho
      · exact absurd h1 ho
      · rw [if_pos h1, if_neg ho]
    · rw [if_neg h1]
  have hparse : CoordinateValidator.parse_from_query (QueryValidator.sanitize q) true =
      .error .invalidCoordinates := by
    rw [parse_from_query_eq, hm]
    show (match CoordinateValidator.validate t1.val t2.val with
      | .ok c => (.ok (some c) : Except Err (Option (ℚ × ℚ)))
      | .error e => if true then .error e else .ok none) = .error .invalidCoordinates
    rw [hval2]
    rfl
  rw [search_eq, hv]
  simp only [hparse]
  rfl

/-- Witness for C3 at the spec's example query. -/
theorem c3_witness :
    AddressService.search envFail "999, 35" = (.error .invalidCoordinates, []) :=
  c3_bare_out_of_range envFail "999, 35" "999, 35"
    (NumTok.mk false ['9', '9', '9'] []) (NumTok.mk false ['3', '5'] [])
    (by rfl) (by rfl) (by decide)
    (Or.inl (by
      have h9 : (NumTok.mk false ['9', '9', '9'] []).val = 999 := by
        have ha : digitsToNat ['9', '9', '9'] = 999 := rfl
        have hb : digitsToNat ([] : List Char) = 0 := rfl
        simp [NumTok.val, ha, hb]
      rw [h9, MIN_LATITUDE, MAX_LATITUDE]
      norm_num))

/-- Unfolding lemma: _reverse_geocode once range validation has
succeeded (validation returns its arguments unchanged). -/
theorem reverseGeocode_eq_of_validate_ok (env : Env) (lat lng : ℚ) (query : String)
    (h : CoordinateValidator.validate lat lng = .ok (lat, lng)) :
    AddressService.reverseGeocode env lat lng query =
      (match env.revMain lat lng with
       | .error e => (.error (reverseWrap e), [.revMain lat lng])
       | .ok .pyNone => (.error (reverseWrap (.locationNotFound query)), [.revMain lat lng])
       | .ok .malformed => (.error (reverseWrap .validation), [.revMain lat lng])
       | .ok (.dict dn pc) =>
         match dn with
         | none => (.error (reverseWrap .validation), [.revMain lat lng])
         | some addr =>
           (.ok [LocationData.mk query addr (pc.getD "—") (CoordVal.fromFloat lat)
             (CoordVal.fromFloat lng) "OK" "" env.ts], [.revMain lat lng])) := by
  unfold AddressService.reverseGeocode
  rw [h]

/-- Helper: range validation succeeds exactly on in-range coordinates,
and returns them unchanged. -/
theorem validate_ok_iff (lat lng : ℚ) :
    CoordinateValidator.validate lat lng = .ok (lat, lng) ↔
      (MIN_LATITUDE ≤ lat ∧ lat ≤ MAX_LATITUDE) ∧
      (MIN_LONGITUDE ≤ lng ∧ lng ≤ MAX_LONGITUDE) := by
  unfold CoordinateValidator.validate
  constructor
  · intro h
    by_cases h1 : MIN_LATITUDE ≤ lat ∧ lat ≤ MAX_LATITUDE
    · by_cases h2 : MIN_LONGITUDE ≤ lng ∧ lng ≤ MAX_LONGITUDE
      · exact ⟨h1, h2⟩
      · rw [if_pos h1, if_neg h2] at h
        exact absurd h (by simp)
    · rw [if_neg h1] at h
      exact absurd h (by simp)
  · intro h
    rw [if_pos h.1, if_pos h.2]

/-- Helper: shape of a successful _reverse_geocode call: the coordinates
passed range validation and the single result carries them as printed
floats, with the postal code drawn verbatim from the reverse payload
(sentinel when absent). -/
theorem reverseGeocode_ok (env : Env) (lat lng : ℚ) (query : String)
    (res : List LocationData) (calls : List ApiCall)
    (h : AddressService.reverseGeocode env lat lng query = (.ok res, calls)) :
    (MIN_LATITUDE ≤ lat ∧ lat ≤ MAX_LATITUDE) ∧
    (MIN_LONGITUDE ≤ lng ∧ lng ≤ MAX_LONGITUDE) ∧
    ∃ addr pc, env.revMain lat lng = .ok (.dict (some addr) pc) ∧
      res = [LocationData.mk query addr (pc.getD "—") (CoordVal.fromFloat lat)
        (CoordVal.fromFloat lng) "OK" "" env.ts] := by
  by_cases hr : (MIN_LATITUDE ≤ lat ∧ lat ≤ MAX_LATITUDE) ∧
      (MIN_LONGITUDE ≤ lng ∧ lng ≤ MAX_LONGITUDE)
  · rw [reverseGeocode_eq_of_validate_ok env lat lng query ((validate_ok_iff lat lng).mpr hr)]
      at h
    refine ⟨hr.1, hr.2, ?_⟩
    cases hm : env.revMain lat lng with
    | error e => rw [hm] at h; simp at h
    | ok resp =>
      cases resp with
      | pyNone => rw [hm] at h; simp at h
      | malformed => rw [hm] at h; simp at h
      | dict dn pc =>
        cases dn with
        | none => rw [hm] at h; simp at h
        | some addr =>
          rw [hm] at h
          simp only [Prod.mk.injEq] at h
          exact ⟨addr, pc, rfl, (Except.ok.inj h.1).symm⟩
  · exfalso
    unfold AddressService.reverseGeocode at h
    unfold CoordinateValidator.validate at h
    by_cases h1 : MIN_LATITUDE ≤ lat ∧ lat ≤ MAX_LATITUDE
    · by_cases h2 : MIN_LONGITUDE ≤ lng ∧ lng ≤ MAX_LONGITUDE
      · exact hr ⟨h1, h2⟩
      · rw [if_pos h1, if_neg h2] at h
        simp at h
    · rw [if_neg h1] at h
      simp at h

/-- C1 counterexample: with an upstream search item carrying the
latitude string "999", the search flow emits a LocationResult whose
latitude field parses to 999, outside [-90, 90]: the direct path of the
search flow copies the upstream strings without range validation, so the
claimed invariant does not hold for every constructed result. -/
theorem c1_counterexample :
    (AddressService.search envC1 "Nowhere").1 = .ok [locC1] ∧
    locC1.lat = CoordVal.raw "999" ∧
    CoordVal.parsed locC1.lat = some 999 ∧ ¬((999 : ℚ) ≤ MAX_LATITUDE) := by
  refine ⟨rfl, rfl, ?_, ?_⟩
  · show pyFloat "999" = some 999
    show (if False then none else some ((999 : ℚ) + 0 / 10 ^ 0)) = some 999
    norm_num
  · rw [MAX_LATITUDE]
    norm_num

/-- C1 (amended): every LocationResult constructed by the reverse flow —
which includes the search flow's fallback path, built by the same
function — carries validated coordinates: the latitude field is the
printed form of a float in [-90, 90] and the longitude field of a float
in [-180, 180].  The search flow's direct path instead copies the
upstream item's strings verbatim, without validation. -/
theorem c1_reverse_flow_in_range (env : Env) (lat lng : ℚ) (query : String)
    (res : List LocationData) (calls : List ApiCall)
    (h : AddressService.reverseGeocode env lat lng query = (.ok res, calls)) :
    ∀ r ∈ res,
      (∃ a, r.lat = CoordVal.fromFloat a ∧ MIN_LATITUDE ≤ a ∧ a ≤ MAX_LATITUDE) ∧
      (∃ b, r.lng = CoordVal.fromFloat b ∧ MIN_LONGITUDE ≤ b ∧ b ≤ MAX_LONGITUDE) := by
  obtain ⟨h1, h2, addr, pc, hm, hres⟩ := reverseGeocode_ok env lat lng query res calls h
  intro r hr
  rw [hres] at hr
  have : r = LocationData.mk query addr (pc.getD "—") (CoordVal.fromFloat lat)
      (CoordVal.fromFloat lng) "OK" "" env.ts := List.mem_singleton.mp hr
  subst this
  exact ⟨⟨lat, rfl, h1.1, h1.2⟩, ⟨lng, rfl, h2.1, h2.2⟩⟩

/-- Witness for the amended C1 at a concrete in-range reverse call. -/
theorem c1_witness :
    (∃ a, locRev.lat = CoordVal.fromFloat a ∧ MIN_LATITUDE ≤ a ∧ a ≤ MAX_LATITUDE) ∧
    (∃ b, locRev.lng = CoordVal.fromFloat b ∧ MIN_LONGITUDE ≤ b ∧ b ≤ MAX_LONGITUDE) := by
  have hval : CoordinateValidator.validate 31 35 = .ok (31, 35) :=
    (validate_ok_iff 31 35).mpr (by
      rw [MIN_LATITUDE, MAX_LATITUDE, MIN_LONGITUDE, MAX_LONGITUDE]
      norm_num)
  have hrev : AddressService.reverseGeocode envRev 31 35 "q" =
      (.ok [locRev], [.revMain 31 35]) := by
    rw [reverseGeocode_eq_of_validate_ok envRev 31 35 "q" hval]
    rfl
  exact c1_reverse_flow_in_range envRev 31 35 "q" [locRev] [.revMain 31 35] hrev locRev
    (List.mem_singleton.mpr rfl)

/-- Helper: the numeric facts carried by a whitespace character: its code
point lies in the Python whitespace set. -/
theorem pySpace_toNat (c : Char) (h : pySpace c = true) :
    (9 ≤ c.toNat ∧ c.toNat ≤ 13) ∨ c.toNat = 32 ∨ (28 ≤ c.toNat ∧ c.toNat ≤ 31) ∨
    c.toNat = 133 ∨ c.toNat = 160 ∨ c.toNat = 5760 ∨
    (8192 ≤ c.toNat ∧ c.toNat ≤ 8202) ∨ c.toNat = 8232 ∨ c.toNat = 8233 ∨
    c.toNat = 8239 ∨ c.toNat = 8287 ∨ c.toNat = 12288 := by
  unfold pySpace at h
  simp only [Bool.or_eq_true, Bool.and_eq_true, decide_eq_true_eq, beq_iff_eq] at h
  omega

/-- Helper: a whitespace character is not a digit, not a sign, and does
not match the letter l case-insensitively. -/
theorem pySpace_shape (c : Char) (h : pySpace c = true) :
    isAsciiDigit c = false ∧ (c == '-') = false ∧ (c == '+') = false ∧
    ciEq c 'l' = false := by
  have hn := pySpace_toNat c h
  refine ⟨?_, ?_, ?_, ?_⟩
  · rw [Bool.eq_false_iff]
    intro hd
    simp only [isAsciiDigit, Bool.and_eq_true, decide_eq_true_eq] at hd
    omega
  · rw [Bool.eq_false_iff]
    intro hc
    have he : c = '-' := beq_iff_eq.mp hc
    subst he
    rw [show ('-' : Char).toNat = 45 from rfl] at hn
    omega
  · rw [Bool.eq_false_iff]
    intro hc
    have he : c = '+' := beq_iff_eq.mp hc
    subst he
    rw [show ('+' : Char).toNat = 43 from rfl] at hn
    omega
  · rw [Bool.eq_false_iff]
    intro hc
    simp only [ciEq, Bool.or_eq_true, Bool.and_eq_true, decide_eq_true_eq,
      beq_iff_eq] at hc
    rcases hc with hc | hc
    · subst hc
      rw [show ('l' : Char).toNat = 108 from rfl] at hn
      omega
    · have h65 := hc.1.1
      have h90 := hc.1.2
      omega

/-- Helper: a character matching the letter l case-insensitively is not
a digit and not a sign. -/
theorem ciEq_l_shape (c : Char) (h : ciEq c 'l' = true) :
    isAsciiDigit c = false ∧ (c == '-') = false ∧ (c == '+') = false := by
  simp only [ciEq, Bool.or_eq_true, Bool.and_eq_true, decide_eq_true_eq,
    beq_iff_eq] at h
  have hn : c.toNat = 108 ∨ (65 ≤ c.toNat ∧ c.toNat ≤ 90) := by
    rcases h with h | h
    · subst h
      exact Or.inl rfl
    · exact Or.inr ⟨h.1.1, h.1.2⟩
  refine ⟨?_, ?_, ?_⟩
  · rw [Bool.eq_false_iff]
    intro hd
    simp only [isAsciiDigit, Bool.and_eq_true, decide_eq_true_eq] at hd
    omega
  · rw [Bool.eq_false_iff]
    intro hc
    have he : c = '-' := beq_iff_eq.mp hc
    subst he
    rw [show ('-' : Char).toNat = 45 from rfl] at hn
    omega
  · rw [Bool.eq_false_iff]
    intro hc
    have he : c = '+' := beq_iff_eq.mp hc
    subst he
    rw [show ('+' : Char).toNat = 43 from rfl] at hn
    omega

/-- Helper: no number token can start at a character that is neither a
digit nor a sign. -/
theorem numSplits_nil (c : Char) (cs : List Char) (hd : isAsciiDigit c = false)
    (h1 : (c == '-') = false) (h2 : (c == '+') = false) :
    numSplits (c :: cs) = [] := by
  unfold numSplits signTakes
  simp only [h1, h2, Bool.false_eq_true, if_false]
  simp [digitTakes, List.takeWhile, hd]

/-- Helper: findSome? over an appended list tries the left part first. -/
theorem findSome?_append {α β : Type} (l1 l2 : List α) (f : α → Option β) :
    (l1 ++ l2).findSome? f = ((l1.findSome? f).orElse (fun _ => l2.findSome? f)) := by
  induction l1 with
  | nil => simp [List.findSome?]
  | cons a l ih =>
    cases hf : f a with
    | none => simp [List.findSome?, hf, ih]
    | some b => simp [List.findSome?, hf]

/-- Helper: the bare matcher ignores a leading whitespace character. -/
theorem matchBarePair_cons_space (c : Char) (cs : List Char) (h : pySpace c = true) :
    matchBarePair (c :: cs) = matchBarePair cs := by
  obtain ⟨hd, h1, h2, _⟩ := pySpace_shape c h
  unfold matchBarePair
  rw [show spaceStar (c :: cs) = spaceStar cs ++ [c :: cs] from by simp [spaceStar, h]]
  rw [findSome?_append]
  simp [List.findSome?, numSplits_nil c cs hd h1 h2]

/-- Helper: the labeled matcher ignores a leading whitespace character. -/
theorem matchLabeledPair_cons_space (c : Char) (cs : List Char) (h : pySpace c = true) :
    matchLabeledPair (c :: cs) = matchLabeledPair cs := by
  obtain ⟨_, _, _, hci⟩ := pySpace_shape c h
  unfold matchLabeledPair
  rw [show spaceStar (c :: cs) = spaceStar cs ++ [c :: cs] from by simp [spaceStar, h]]
  rw [findSome?_append]
  simp [List.findSome?, labelLatTakes, matchCI, hci]

/-- Helper: a query the labeled pattern matches is not matched by the
bare pattern, which is tried first: after leading whitespace the labeled
pattern requires an l, where the bare pattern requires a sign or a
digit. -/
theorem matchBarePair_none_of_labeled (l : List Char)
    (h : (matchLabeledPair l).isSome = true) : matchBarePair l = none := by
  induction l with
  | nil => exact absurd h (by decide)
  | cons c cs ih =>
    by_cases hs : pySpace c = true
    · rw [matchBarePair_cons_space c cs hs]
      rw [matchLabeledPair_cons_space c cs hs] at h
      exact ih h
    · have hsf : pySpace c = false := by
        rw [Bool.eq_false_iff]
        exact hs
      have hss : spaceStar (c :: cs) = [c :: cs] := by simp [spaceStar, hsf]
      have hci : ciEq c 'l' = true := by
        by_contra hcf
        have hcf2 : ciEq c 'l' = false := by
          rw [Bool.eq_false_iff]
          exact hcf
        have : matchLabeledPair (c :: cs) = none := by
          unfold matchLabeledPair
          rw [hss]
          simp [List.findSome?, labelLatTakes, matchCI, hcf2]
        rw [this] at h
        exact absurd h (by decide)
      obtain ⟨hd, h1, h2⟩ := ciEq_l_shape c hci
      unfold matchBarePair
      rw [hss]
      simp [List.findSome?, numSplits_nil c cs hd h1 h2]

/-- C4 counterexample: the resolution pipeline sanitizes before
coordinate extraction, and the sanitizer whitelist contains neither colon
nor equals sign, so a labeled-pair query with in-range values reaches
parse_from_query with its separators turned into spaces: classification
reports not-coordinates and the pipeline takes the search flow — the
trace shows a search-endpoint call and no reverse call. -/
theorem c4_counterexample :
    CoordinateValidator.parse_from_query
      (QueryValidator.sanitize "lat=31.5, lon=35.2") true = .ok none ∧
    AddressService.search envC4 "lat=31.5, lon=35.2" =
      (.ok [locC4], [.searchCall "lat 31.5, lon 35.2"]) := ⟨rfl, rfl⟩

/-- C4 (amended): for every query the labeled pattern matches with both
captured values in range, parse_from_query itself — applied to the query
as the function receives it, before any sanitization — classifies it as
coordinates: the bare pattern cannot match such a query, the labeled
pattern's two captures are passed to range validation, and the captured
values are returned.  In the pipeline, however, sanitization replaces the
colon or equals separators with spaces first, so such queries fall
through to address search (see the counterexample). -/
theorem c4_labeled_parse (q : String) (t1 t2 : NumTok)
    (hm : matchLabeledPair (pyStrip q.toList) = some (t1, t2))
    (h1 : MIN_LATITUDE ≤ t1.val ∧ t1.val ≤ MAX_LATITUDE)
    (h2 : MIN_LONGITUDE ≤ t2.val ∧ t2.val ≤ MAX_LONGITUDE) :
    CoordinateValidator.parse_from_query q true = .ok (some (t1.val, t2.val)) := by
  rw [parse_from_query_eq]
  rw [matchBarePair_none_of_labeled (pyStrip q.toList) (by rw [hm]; rfl)]
  rw [hm]
  show (match CoordinateValidator.validate t1.val t2.val with
    | .ok c => (.ok (some c) : Except Err (Option (ℚ × ℚ)))
    | .error e => if true then .error e else .ok none) = .ok (some (t1.val, t2.val))
  rw [(validate_ok_iff t1.val t2.val).mpr ⟨h1, h2⟩]

/-- Witness for the amended C4 at a concrete labeled query. -/
theorem c4_witness :
    CoordinateValidator.parse_from_query "lat:31.5, lon:35.2" true =
      .ok (some ((NumTok.mk false ['3', '1'] ['5']).val,
        (NumTok.mk false ['3', '5'] ['2']).val)) :=
  c4_labeled_parse "lat:31.5, lon:35.2"
    (NumTok.mk false ['3', '1'] ['5']) (NumTok.mk false ['3', '5'] ['2'])
    (by rfl)
    (by
      show MIN_LATITUDE ≤ (31 : ℚ) + 5 / 10 ^ 1 ∧ (31 : ℚ) + 5 / 10 ^ 1 ≤ MAX_LATITUDE
      rw [MIN_LATITUDE, MAX_LATITUDE]
      norm_num)
    (by
      show MIN_LONGITUDE ≤ (35 : ℚ) + 2 / 10 ^ 1 ∧ (35 : ℚ) + 2 / 10 ^ 1 ≤ MAX_LONGITUDE
      rw [MIN_LONGITUDE, MAX_LONGITUDE]
      norm_num)

/-- Helper: the postal-code guard of the search flow's direct path never
produces the empty string. -/
theorem zipIf_ne (z : String) : (if z.isEmpty then "—" else z) ≠ "" := by
  by_cases hz : z.isEmpty
  · rw [if_pos hz]
    decide
  · rw [if_neg hz]
    intro he
    exact hz ((String.isEmpty_iff z).mpr he)

/-- Helper: a successful reverse geocode yields no empty postal code as
long as the reverse payloads never carry an explicit empty-string
postcode. -/
theorem reverseGeocode_zip (env : Env) (lat lng : ℚ) (q : String)
    (res : List LocationData) (calls : List ApiCall)
    (henv : ∀ (a b : ℚ) (dn pc : Option String),
      env.revMain a b = .ok (.dict dn pc) → pc ≠ some "")
    (h : AddressService.reverseGeocode env lat lng q = (.ok res, calls)) :
    ∀ r ∈ res, r.zip_code ≠ "" := by
  obtain ⟨_, _, addr, pc, hm, hres⟩ := reverseGeocode_ok env lat lng q res calls h
  intro r hr
  rw [hres] at hr
  have hrr := List.mem_singleton.mp hr
  subst hrr
  have hpc : pc ≠ some "" := henv lat lng (some addr) pc hm
  cases pc with
  | none =>
    show ("—" : String) ≠ ""
    decide
  | some s =>
    intro hc
    exact hpc (by rw [show s = "" from hc])

/-- Helper: every result emitted by one iteration of the search-flow loop
has a non-empty postal code, under the same proviso on reverse
payloads. -/
theorem processItem_zip (env : Env) (q : String) (item : OsmItem)
    (henv : ∀ (a b : ℚ) (dn pc : Option String),
      env.revMain a b = .ok (.dict dn pc) → pc ≠ some "")
    (res : List LocationData) (calls : List ApiCall)
    (h : AddressService.processItem env q item = (.ok res, calls)) :
    ∀ r ∈ res, r.zip_code ≠ "" := by
  unfold AddressService.processItem at h
  by_cases hb1 : (truthyStr item.lat && truthyStr item.lon && truthyStr item.display_name) = true
  · rw [if_pos hb1] at h
    simp only [Prod.mk.injEq] at h
    have hres := Except.ok.inj h.1
    intro r hr
    rw [← hres] at hr
    have hrr := List.mem_singleton.mp hr
    subst hrr
    exact zipIf_ne _
  · rw [if_neg hb1] at h
    by_cases hb2 : (truthyStr item.lat && truthyStr item.lon) = true
    · rw [if_pos hb2] at h
      cases hf1 : pyFloat (item.lat.getD "") with
      | none => rw [hf1] at h; simp at h
      | some f1 =>
        cases hf2 : pyFloat (item.lon.getD "") with
        | none => rw [hf1, hf2] at h; simp at h
        | some f2 =>
          rw [hf1, hf2] at h
          replace h : AddressService.reverseGeocode env f1 f2 q = (.ok res, calls) := h
          exact reverseGeocode_zip env f1 f2 q res calls henv h
    · rw [if_neg hb2] at h
      simp only [Prod.mk.injEq] at h
      have hres := Except.ok.inj h.1
      intro r hr
      rw [← hres] at hr
      exact absurd hr (List.not_mem_nil r)

/-- Helper: every result accumulated over the search-flow loop has a
non-empty postal code, under the same proviso on reverse payloads. -/
theorem processItems_zip (env : Env) (q : String)
    (henv : ∀ (a b : ℚ) (dn pc : Option String),
      env.revMain a b = .ok (.dict dn pc) → pc ≠ some "") :
    ∀ (items : List OsmItem) (res : List LocationData) (calls : List ApiCall),
      AddressService.processItems env q items = (.ok res, calls) →
      ∀ r ∈ res, r.zip_code ≠ "" := by
  intro items
  induction items with
  | nil =>
    intro res calls h r hr
    replace h : ((.ok [] : Except Err (List LocationData)), ([] : List ApiCall)) =
      (.ok res, calls) := h
    simp only [Prod.mk.injEq] at h
    rw [← Except.ok.inj h.1] at hr
    exact absurd hr (List.not_mem_nil r)
  | cons item rest ih =>
    intro res calls h r hr
    unfold AddressService.processItems at h
    cases hpi : AddressService.processItem env q item with
    | mk pr pcs =>
      cases pr with
      | error e => rw [hpi] at h; simp at h
      | ok rs =>
        rw [hpi] at h
        cases hpr : AddressService.processItems env q rest with
        | mk qr qcs =>
          cases qr with
          | error e2 => rw [hpr] at h; simp at h
          | ok rs2 =>
            rw [hpr] at h
            simp only [Prod.mk.injEq] at h
            rw [← Except.ok.inj h.1] at hr
            rcases List.mem_append.mp hr with hmem | hmem
            · exact processItem_zip env q item henv rs pcs hpi r hmem
            · exact ih rs2 qcs hpr r hmem

/-- Helper: every result returned by AddressService.search has a
non-empty postal code, provided the reverse endpoint never answers with
an explicit empty-string postcode. -/
theorem search_zip (env : Env) (raw : String)
    (henv : ∀ (a b : ℚ) (dn pc : Option String),
      env.revMain a b = .ok (.dict dn pc) → pc ≠ some "")
    (res : List LocationData) (calls : List ApiCall)
    (h : AddressService.search env raw = (.ok res, calls)) :
    ∀ r ∈ res, r.zip_code ≠ "" := by
  rw [search_eq] at h
  split at h
  · simp at h
  · next q0 hq =>
    split at h
    · simp at h
    · next c hc =>
      cases hrg : (AddressService.reverseGeocode env c.1 c.2
          (QueryValidator.sanitize q0)).1 with
      | error e => rw [hrg] at h; simp at h
      | ok v =>
        rw [hrg] at h
        simp only [Prod.mk.injEq, Except.ok.injEq] at h
        intro r hr
        rw [← h.1] at hr
        refine reverseGeocode_zip env c.1 c.2 (QueryValidator.sanitize q0) v
          (AddressService.reverseGeocode env c.1 c.2 (QueryValidator.sanitize q0)).2
          henv ?_ r hr
        rw [← hrg]
    · split at h
      · simp at h
      · simp at h
      · simp at h
      · next its hits =>
        split at h
        · simp at h
        · cases hpr : AddressService.processItems env (QueryValidator.sanitize q0) its with
          | mk qr qcs =>
            cases qr with
            | error e => rw [hpr] at h; simp at h
            | ok results =>
              rw [hpr] at h
              split at h
              · simp at h
              · next rs2 calls2 heq2 =>
                simp only [Prod.mk.injEq, Except.ok.injEq] at heq2
                obtain ⟨hrs2, hcs2⟩ := heq2
                subst hrs2
                subst hcs2
                split at h
                · simp at h
                · simp only [Prod.mk.injEq, Except.ok.injEq] at h
                  intro r hr
                  rw [← h.1] at hr
                  exact processItems_zip env (QueryValidator.sanitize q0) henv its results qcs
                    hpr r hr

/-- Helper: when the direct path needs a postal code and the supplementary
reverse call fails, the postal code degrades to the sentinel and the
primary result is still emitted, with exactly that one enrichment call
recorded. -/
theorem processItem_enrich_fail (env : Env) (q la ln ad : String) (e : Err)
    (hla : la ≠ "") (hln : ln ≠ "") (had : ad ≠ "")
    (henr : env.revEnrich la ln = .error e) :
    AddressService.processItem env q (OsmItem.mk (some la) (some ln) (some ad) none) =
      (.ok [LocationData.mk q ad "—" (CoordVal.raw la) (CoordVal.raw ln) "OK" "" env.ts],
        [.revEnrich la ln]) := by
  have hlaE : la.isEmpty = false := by
    rw [Bool.eq_false_iff]
    intro hx
    exact hla ((String.isEmpty_iff la).mp hx)
  have hlnE : ln.isEmpty = false := by
    rw [Bool.eq_false_iff]
    intro hx
    exact hln ((String.isEmpty_iff ln).mp hx)
  have hadE : ad.isEmpty = false := by
    rw [Bool.eq_false_iff]
    intro hx
    exact had ((String.isEmpty_iff ad).mp hx)
  have hcond : (truthyStr (OsmItem.mk (some la) (some ln) (some ad) none).lat &&
      truthyStr (OsmItem.mk (some la) (some ln) (some ad) none).lon &&
      truthyStr (OsmItem.mk (some la) (some ln) (some ad) none).display_name) = true := by
    simp [truthyStr, hlaE, hlnE, hadE]
  unfold AddressService.processItem
  rw [if_pos hcond]
  simp only [Option.getD_some, Option.getD_none, henr]
  rfl

/-- C5 (amended), as one statement in two parts.  First: every
LocationResult the search flow returns has a non-empty postal code — a
value or the sentinel — provided the reverse endpoint never answers
with an explicit empty-string postcode; without that proviso the
fallback reverse path copies the empty string verbatim (see the
counterexample).  Second: when an item needs postal-code enrichment and
the supplementary reverse call fails, the postal code degrades to the
sentinel and the primary result is still emitted. -/
theorem c5_postal_code :
    (∀ (env : Env) (raw : String),
      (∀ (a b : ℚ) (dn pc : Option String),
        env.revMain a b = .ok (.dict dn pc) → pc ≠ some "") →
      ∀ (res : List LocationData) (calls : List ApiCall),
      AddressService.search env raw = (.ok res, calls) →
      ∀ r ∈ res, r.zip_code ≠ "") ∧
    (∀ (env : Env) (q la ln ad : String) (e : Err), la ≠ "" → ln ≠ "" → ad ≠ "" →
      env.revEnrich la ln = .error e →
      AddressService.processItem env q (OsmItem.mk (some la) (some ln) (some ad) none) =
        (.ok [LocationData.mk q ad "—" (CoordVal.raw la) (CoordVal.raw ln) "OK" "" env.ts],
          [.revEnrich la ln])) :=
  ⟨fun env raw henv res calls h => search_zip env raw henv res calls h,
   fun env q la ln ad e h1 h2 h3 h4 => processItem_enrich_fail env q la ln ad e h1 h2 h3 h4⟩

/-- Witness for C5: the first part at a concrete search-flow run whose
reverse endpoint always fails (so the proviso holds vacuously), the
second part at a concrete item with a failing enrichment call. -/
theorem c5_witness :
    (∀ r ∈ [locC4b], r.zip_code ≠ "") ∧
    AddressService.processItem envFail "q" (OsmItem.mk (some "1") (some "2") (some "A") none) =
      (.ok [LocationData.mk "q" "A" "—" (CoordVal.raw "1") (CoordVal.raw "2") "OK" "" "T"],
        [.revEnrich "1" "2"]) :=
  ⟨c5_postal_code.1 envC4 "Somewhere"
      (by
        intro a b dn pc hh
        exact absurd hh (by simp [envC4]))
      [locC4b] [.searchCall "Somewhere"] (by rfl),
   c5_postal_code.2 envFail "q" "1" "2" "A" .rateLimitExceeded (by decide) (by decide)
     (by decide) rfl⟩

/-- Helper: AddressService.search reduced to the item loop, given a query
that validates, does not classify as coordinates, and draws a non-empty
item list from the search endpoint. -/
theorem search_eq_items (env : Env) (raw q0 : String) (its : List OsmItem)
    (hv : QueryValidator.validate raw = .ok q0)
    (hp : CoordinateValidator.parse_from_query (QueryValidator.sanitize q0) true = .ok none)
    (hs : env.searchApi (QueryValidator.sanitize q0) = .ok (.items its))
    (hne : its.isEmpty = false) :
    AddressService.search env raw =
      (match AddressService.processItems env (QueryValidator.sanitize q0) its with
       | (.error e, cs) =>
         (.error (searchWrap e), .searchCall (QueryValidator.sanitize q0) :: cs)
       | (.ok results, cs) =>
         if results.isEmpty then
           (.error (searchWrap (.locationNotFound (QueryValidator.sanitize q0))),
             .searchCall (QueryValidator.sanitize q0) :: cs)
         else (.ok results, .searchCall (QueryValidator.sanitize q0) :: cs)) := by
  rw [search_eq, hv]
  simp only [hp, hs, hne, Bool.false_eq_true, if_false]

/-- C5 counterexample: an upstream whose reverse endpoint answers with an
explicit empty-string postcode makes the search flow's fallback path
emit a LocationResult whose postal code is the empty string — neither a
postal code value nor the sentinel — refuting the claim as stated. -/
theorem c5_counterexample :
    (AddressService.search envC5 "Nowhere").1 = .ok [locC5] ∧ locC5.zip_code = "" := by
  constructor
  · have hval : CoordinateValidator.validate ((31 : ℚ) + 5 / 10 ^ 1) ((35 : ℚ) + 2 / 10 ^ 1) =
        .ok ((31 : ℚ) + 5 / 10 ^ 1, (35 : ℚ) + 2 / 10 ^ 1) :=
      (validate_ok_iff _ _).mpr (by
        rw [MIN_LATITUDE, MAX_LATITUDE, MIN_LONGITUDE, MAX_LONGITUDE]
        norm_num)
    have hrev : AddressService.reverseGeocode envC5 ((31 : ℚ) + 5 / 10 ^ 1)
        ((35 : ℚ) + 2 / 10 ^ 1) "Nowhere" =
        (.ok [locC5], [.revMain ((31 : ℚ) + 5 / 10 ^ 1) ((35 : ℚ) + 2 / 10 ^ 1)]) := by
      rw [reverseGeocode_eq_of_validate_ok _ _ _ _ hval]
      rfl
    have hpi : AddressService.processItem envC5 "Nowhere" itemC5 =
        (.ok [locC5], [.revMain ((31 : ℚ) + 5 / 10 ^ 1) ((35 : ℚ) + 2 / 10 ^ 1)]) := by
      have hstep : AddressService.processItem envC5 "Nowhere" itemC5 =
          AddressService.reverseGeocode envC5 ((31 : ℚ) + 5 / 10 ^ 1)
            ((35 : ℚ) + 2 / 10 ^ 1) "Nowhere" := rfl
      rw [hstep, hrev]
    have hpis : AddressService.processItems envC5 "Nowhere" [itemC5] =
        (.ok [locC5], [.revMain ((31 : ℚ) + 5 / 10 ^ 1) ((35 : ℚ) + 2 / 10 ^ 1)]) := by
      unfold AddressService.processItems
      rw [hpi]
      rfl
    rw [search_eq_items envC5 "Nowhere" "Nowhere" [itemC5] rfl rfl rfl rfl]
    rw [show QueryValidator.sanitize "Nowhere" = "Nowhere" from rfl, hpis]
    rfl
  · rfl

/-- Helper: every error exit of _reverse_geocode is a typed
GeoServiceException kind. -/
theorem reverseGeocode_error_isGeo (env : Env) (lat lng : ℚ) (q : String) (e : Err)
    (rc : List ApiCall)
    (h : AddressService.reverseGeocode env lat lng q = (.error e, rc)) : e.isGeo = true := by
  have hg : ∀ e' : Err, (reverseWrap e').isGeo = true := by
    intro e'
    unfold reverseWrap
    by_cases hge : e'.isGeo
    · rw [if_pos hge]
      exact hge
    · rw [if_neg hge]
      rfl
  unfold AddressService.reverseGeocode at h
  split at h
  · simp only [Prod.mk.injEq] at h
    rw [← Except.error.inj h.1]
    exact hg _
  · split at h
    · simp only [Prod.mk.injEq] at h
      rw [← Except.error.inj h.1]
      exact hg _
    · simp only [Prod.mk.injEq] at h
      rw [← Except.error.inj h.1]
      exact hg _
    · simp only [Prod.mk.injEq] at h
      rw [← Except.error.inj h.1]
      exact hg _
    · split at h
      · simp only [Prod.mk.injEq] at h
        rw [← Except.error.inj h.1]
        exact hg _
      · simp at h

/-- Helper: the item loop over a list whose prefix succeeds and whose
next item raises propagates that error, discarding the accumulated
results; the trace keeps the calls already made. -/
theorem processItems_append_error (env : Env) (q : String)
    (pre post_ : List OsmItem) (item : OsmItem)
    (accR : List LocationData) (accC rc : List ApiCall) (e : Err)
    (hpre : AddressService.processItems env q pre = (.ok accR, accC))
    (hitem : AddressService.processItem env q item = (.error e, rc)) :
    AddressService.processItems env q (pre ++ item :: post_) = (.error e, accC ++ rc) := by
  induction pre generalizing accR accC with
  | nil =>
    replace hpre : ((.ok [] : Except Err (List LocationData)), ([] : List ApiCall)) =
      (.ok accR, accC) := hpre
    simp only [Prod.mk.injEq] at hpre
    rw [List.nil_append, ← hpre.2, List.nil_append]
    unfold AddressService.processItems
    rw [hitem]
  | cons a pre ih =>
    rw [List.cons_append]
    unfold AddressService.processItems at hpre ⊢
    cases hpa : AddressService.processItem env q a with
    | mk pr pcs =>
      cases pr with
      | error e2 => rw [hpa] at hpre; simp at hpre
      | ok rs =>
        rw [hpa] at hpre
        cases hpp : AddressService.processItems env q pre with
        | mk qr qcs =>
          cases qr with
          | error e2 => rw [hpp] at hpre; simp at hpre
          | ok rs2 =>
            rw [hpp] at hpre
            simp only [Prod.mk.injEq, Except.ok.injEq] at hpre
            rw [ih rs2 qcs hpp]
            rw [← hpre.2, List.append_assoc]

/-- C10: when a search item that has coordinates but no display name
triggers the fallback reverse geocode and that call fails with error e,
the whole search fails with e (searchWrap leaves GeoServiceException
kinds unchanged, and every reverse error is one — the second conjunct),
discarding the results already accumulated from earlier items; the trace
keeps the search call, the prefix's calls, and the failed reverse call.
This is in contrast to the postal-code enrichment call, whose failure is
swallowed (settled with claim C5's theorem). -/
theorem c10_fallback_failure_aborts (env : Env) (raw q0 : String)
    (pre post_ : List OsmItem) (item : OsmItem) (la ln : String) (f1 f2 : ℚ)
    (accR : List LocationData) (accC rc : List ApiCall) (e : Err)
    (hv : QueryValidator.validate raw = .ok q0)
    (hp : CoordinateValidator.parse_from_query (QueryValidator.sanitize q0) true = .ok none)
    (hs : env.searchApi (QueryValidator.sanitize q0) = .ok (.items (pre ++ item :: post_)))
    (hpre : AddressService.processItems env (QueryValidator.sanitize q0) pre = (.ok accR, accC))
    (hila : item.lat = some la) (hlane : la ≠ "")
    (hiln : item.lon = some ln) (hlnne : ln ≠ "")
    (hdn : truthyStr item.display_name = false)
    (hf1 : pyFloat la = some f1) (hf2 : pyFloat ln = some f2)
    (hrev : AddressService.reverseGeocode env f1 f2 (QueryValidator.sanitize q0) =
      (.error e, rc)) :
    AddressService.search env raw =
      (.error (searchWrap e), .searchCall (QueryValidator.sanitize q0) :: (accC ++ rc)) ∧
    searchWrap e = e := by
  have hlaE : la.isEmpty = false := by
    rw [Bool.eq_false_iff]
    intro hx
    exact hlane ((String.isEmpty_iff la).mp hx)
  have hlnE : ln.isEmpty = false := by
    rw [Bool.eq_false_iff]
    intro hx
    exact hlnne ((String.isEmpty_iff ln).mp hx)
  have hitem : AddressService.processItem env (QueryValidator.sanitize q0) item =
      (.error e, rc) := by
    unfold AddressService.processItem
    have hb1 : (truthyStr item.lat && truthyStr item.lon &&
        truthyStr item.display_name) = false := by
      rw [hdn, Bool.and_false]
    have hb2 : (truthyStr item.lat && truthyStr item.lon) = true := by
      rw [hila, hiln]
      simp [truthyStr, hlaE, hlnE]
    rw [if_neg (by rw [hb1]; exact Bool.false_ne_true), if_pos hb2, hila, hiln]
    simp only [Option.getD_some, hf1, hf2]
    show AddressService.reverseGeocode env f1 f2 (QueryValidator.sanitize q0) = (.error e, rc)
    exact hrev
  have hpp := processItems_append_error env (QueryValidator.sanitize q0) pre post_ item
    accR accC rc e hpre hitem
  constructor
  · rw [search_eq_items env raw q0 (pre ++ item :: post_) hv hp hs
      (by cases pre <;> rfl)]
    rw [hpp]
  · unfold searchWrap
    rw [if_pos (reverseGeocode_error_isGeo env f1 f2 (QueryValidator.sanitize q0) e rc hrev)]

/-- Witness for C10: the two-item environment, whose first item succeeds
on the direct path and whose second item's fallback reverse call fails
with a rate-limit error. -/
theorem c10_witness :
    AddressService.search envC10 "Nowhere" =
      (.error (searchWrap .rateLimitExceeded), .searchCall "Nowhere" ::
        (([] : List ApiCall) ++
          [.revMain ((31 : ℚ) + 5 / 10 ^ 1) ((35 : ℚ) + 2 / 10 ^ 1)])) ∧
    searchWrap .rateLimitExceeded = .rateLimitExceeded := by
  have hval : CoordinateValidator.validate ((31 : ℚ) + 5 / 10 ^ 1) ((35 : ℚ) + 2 / 10 ^ 1) =
      .ok ((31 : ℚ) + 5 / 10 ^ 1, (35 : ℚ) + 2 / 10 ^ 1) :=
    (validate_ok_iff _ _).mpr (by
      rw [MIN_LATITUDE, MAX_LATITUDE, MIN_LONGITUDE, MAX_LONGITUDE]
      norm_num)
  have hrev : AddressService.reverseGeocode envC10 ((31 : ℚ) + 5 / 10 ^ 1)
      ((35 : ℚ) + 2 / 10 ^ 1) "Nowhere" =
      (.error .rateLimitExceeded, [.revMain ((31 : ℚ) + 5 / 10 ^ 1) ((35 : ℚ) + 2 / 10 ^ 1)]) := by
    rw [reverseGeocode_eq_of_validate_ok _ _ _ _ hval]
    rfl
  exact c10_fallback_failure_aborts envC10 "Nowhere" "Nowhere" [itemGood] [] itemBad
    "31.5" "35.2" ((31 : ℚ) + 5 / 10 ^ 1) ((35 : ℚ) + 2 / 10 ^ 1)
    [locC10] [] [.revMain ((31 : ℚ) + 5 / 10 ^ 1) ((35 : ℚ) + 2 / 10 ^ 1)]
    .rateLimitExceeded rfl rfl rfl rfl rfl (by decide) rfl (by decide) rfl rfl rfl hrev

/-- Helper: the replacement step always produces a whitelisted character
(whitespace is in the character class via its backslash-s member). -/
theorem replaceChar_whitelisted (c : Char) : inWhitelist (replaceChar c) = true := by
  unfold replaceChar
  by_cases hc : inWhitelist c
  · rw [if_pos hc]
    exact hc
  · rw [if_neg hc]
    decide

/-- Helper: the split accumulator produces only non-empty words free of
whitespace, given a whitespace-free accumulator. -/
theorem pySplitAux_wf : ∀ (l acc : List Char), (∀ c ∈ acc, pySpace c = false) →
    ∀ w ∈ pySplitAux l acc, w ≠ [] ∧ ∀ c ∈ w, pySpace c = false := by
  intro l
  induction l with
  | nil =>
    intro acc hacc w hw
    cases acc with
    | nil => exact absurd hw (by simp [pySplitAux])
    | cons a t =>
      have hw2 : w = (a :: t).reverse := by
        simpa [pySplitAux] using hw
      subst hw2
      constructor
      · simp
      · intro c hc
        exact hacc c (List.mem_reverse.mp hc)
  | cons c0 cs ih =>
    intro acc hacc w hw
    by_cases hsp : pySpace c0 = true
    · cases acc with
      | nil =>
        rw [show pySplitAux (c0 :: cs) [] = pySplitAux cs [] from by simp [pySplitAux, hsp]]
          at hw
        exact ih [] (by intro c hc; exact absurd hc (List.not_mem_nil c)) w hw
      | cons a t =>
        rw [show pySplitAux (c0 :: cs) (a :: t) = (a :: t).reverse :: pySplitAux cs [] from by
          simp [pySplitAux, hsp]] at hw
        rcases List.mem_cons.mp hw with hw2 | hw2
        · subst hw2
          constructor
          · simp
          · intro c hc
            exact hacc c (List.mem_reverse.mp hc)
        · exact ih [] (by intro c hc; exact absurd hc (List.not_mem_nil c)) w hw2
    · have hsp2 : pySpace c0 = false := by
        rw [Bool.eq_false_iff]
        exact hsp
      rw [show pySplitAux (c0 :: cs) acc = pySplitAux cs (c0 :: acc) from by
        simp [pySplitAux, hsp2]] at hw
      refine ih (c0 :: acc) ?_ w hw
      intro c hc
      rcases List.mem_cons.mp hc with hc2 | hc2
      · rw [hc2]
        exact hsp2
      · exact hacc c hc2

/-- Helper: every character of a word produced by the split accumulator
comes from the input or the accumulator. -/
theorem pySplitAux_mem : ∀ (l acc : List Char), ∀ w ∈ pySplitAux l acc,
    ∀ c ∈ w, c ∈ l ∨ c ∈ acc := by
  intro l
  induction l with
  | nil =>
    intro acc w hw c hc
    cases acc with
    | nil => exact absurd hw (by simp [pySplitAux])
    | cons a t =>
      have hw2 : w = (a :: t).reverse := by
        simpa [pySplitAux] using hw
      subst hw2
      exact Or.inr (List.mem_reverse.mp hc)
  | cons c0 cs ih =>
    intro acc w hw c hc
    by_cases hsp : pySpace c0 = true
    · cases acc with
      | nil =>
        rw [show pySplitAux (c0 :: cs) [] = pySplitAux cs [] from by simp [pySplitAux, hsp]]
          at hw
        rcases ih [] w hw c hc with hm | hm
        · exact Or.inl (List.mem_cons_of_mem c0 hm)
        · exact absurd hm (List.not_mem_nil c)
      | cons a t =>
        rw [show pySplitAux (c0 :: cs) (a :: t) = (a :: t).reverse :: pySplitAux cs [] from by
          simp [pySplitAux, hsp]] at hw
        rcases List.mem_cons.mp hw with hw2 | hw2
        · subst hw2
          exact Or.inr (List.mem_reverse.mp hc)
        · rcases ih [] w hw2 c hc with hm | hm
          · exact Or.inl (List.mem_cons_of_mem c0 hm)
          · exact absurd hm (List.not_mem_nil c)
    · have hsp2 : pySpace c0 = false := by
        rw [Bool.eq_false_iff]
        exact hsp
      rw [show pySplitAux (c0 :: cs) acc = pySplitAux cs (c0 :: acc) from by
        simp [pySplitAux, hsp2]] at hw
      rcases ih (c0 :: acc) w hw c hc with hm | hm
      · exact Or.inl (List.mem_cons_of_mem c0 hm)
      · rcases List.mem_cons.mp hm with hm2 | hm2
        · rw [hm2]
          exact Or.inl (List.mem_cons_self c0 cs)
        · exact Or.inr hm2

/-- Helper: the split accumulator walks through a whitespace-free word by
moving it, reversed, onto the accumulator. -/
theorem pySplitAux_word : ∀ (w rest acc : List Char), (∀ c ∈ w, pySpace c = false) →
    pySplitAux (w ++ rest) acc = pySplitAux rest (w.reverse ++ acc) := by
  intro w
  induction w with
  | nil =>
    intro rest acc _
    simp
  | cons c w' ih =>
    intro rest acc hw
    have hc : pySpace c = false := hw c (List.mem_cons_self c w')
    rw [List.cons_append]
    rw [show pySplitAux (c :: (w' ++ rest)) acc = pySplitAux (w' ++ rest) (c :: acc) from by
      simp [pySplitAux, hc]]
    rw [ih rest (c :: acc) (fun x hx => hw x (List.mem_cons_of_mem c hx))]
    simp

/-- Helper: the split accumulator at a space with a non-empty accumulator
emits the accumulated word. -/
theorem pySplitAux_space (c : Char) (rest : List Char) (a : Char) (t : List Char)
    (h : pySpace c = true) :
    pySplitAux (c :: rest) (a :: t) = (a :: t).reverse :: pySplitAux rest [] := by
  simp [pySplitAux, h]

/-- Helper: splitting the space-joined form of a list of non-empty
whitespace-free words recovers exactly those words. -/
theorem pySplit_joinSp : ∀ ws : List (List Char),
    (∀ w ∈ ws, w ≠ [] ∧ ∀ c ∈ w, pySpace c = false) → pySplit (joinSp ws) = ws := by
  intro ws
  induction ws with
  | nil => intro _; rfl
  | cons w ws' ih =>
    intro hws
    obtain ⟨hne, hnospace⟩ := hws w (List.mem_cons_self w ws')
    have hne' : w.reverse ≠ [] := fun hr => hne (List.reverse_eq_nil_iff.mp hr)
    cases ws' with
    | nil =>
      show pySplitAux (joinSp [w]) [] = [w]
      rw [show joinSp [w] = w from rfl]
      rw [show pySplitAux w [] = pySplitAux (w ++ []) [] from by rw [List.append_nil]]
      rw [pySplitAux_word w [] [] hnospace, List.append_nil]
      cases hrc : w.reverse with
      | nil => exact absurd hrc hne'
      | cons b u =>
        rw [show pySplitAux [] (b :: u) = [(b :: u).reverse] from by simp [pySplitAux]]
        rw [← hrc, List.reverse_reverse]
    | cons w2 ws'' =>
      show pySplitAux (joinSp (w :: w2 :: ws'')) [] = w :: w2 :: ws''
      rw [show joinSp (w :: w2 :: ws'') = w ++ ' ' :: joinSp (w2 :: ws'') from rfl]
      rw [pySplitAux_word w (' ' :: joinSp (w2 :: ws'')) [] hnospace, List.append_nil]
      cases hrc : w.reverse with
      | nil => exact absurd hrc hne'
      | cons b u =>
        rw [pySplitAux_space ' ' (joinSp (w2 :: ws'')) b u rfl]
        rw [← hrc, List.reverse_reverse]
        rw [show pySplitAux (joinSp (w2 :: ws'')) [] = pySplit (joinSp (w2 :: ws'')) from rfl]
        rw [ih (fun x hx => hws x (List.mem_cons_of_mem w hx))]

/-- Helper: every character of the space-joined form is a space or comes
from one of the words. -/
theorem joinSp_mem : ∀ (ws : List (List Char)) (c : Char), c ∈ joinSp ws →
    c = ' ' ∨ ∃ w ∈ ws, c ∈ w := by
  intro ws
  induction ws with
  | nil =>
    intro c hc
    exact absurd hc (List.not_mem_nil c)
  | cons w ws' ih =>
    intro c hc
    cases ws' with
    | nil =>
      exact Or.inr ⟨w, List.mem_cons_self w [], hc⟩
    | cons w2 ws'' =>
      rw [show joinSp (w :: w2 :: ws'') = w ++ ' ' :: joinSp (w2 :: ws'') from rfl] at hc
      rcases List.mem_append.mp hc with hm | hm
      · exact Or.inr ⟨w, List.mem_cons_self w (w2 :: ws''), hm⟩
      · rcases List.mem_cons.mp hm with hm2 | hm2
        · exact Or.inl hm2
        · rcases ih c hm2 with hsp | ⟨w3, hw3, hcw3⟩
          · exact Or.inl hsp
          · exact Or.inr ⟨w3, List.mem_cons_of_mem w hw3, hcw3⟩

/-- Helper: the replacement map is the identity on lists of whitelisted
characters. -/
theorem map_replaceChar_id : ∀ l : List Char, (∀ c ∈ l, inWhitelist c = true) →
    l.map replaceChar = l := by
  intro l
  induction l with
  | nil => intro _; rfl
  | cons c cs ih =>
    intro h
    rw [List.map_cons]
    rw [show replaceChar c = c from by
      unfold replaceChar
      rw [if_pos (h c (List.mem_cons_self c cs))]]
    rw [ih (fun x hx => h x (List.mem_cons_of_mem c hx))]

/-- Helper: the whitespace-collapsing step is idempotent. -/
theorem collapse_idem (l : List Char) : collapse (collapse l) = collapse l := by
  unfold collapse
  rw [pySplit_joinSp (pySplit l)
    (pySplitAux_wf l [] (fun c hc => absurd hc (List.not_mem_nil c)))]

/-- C9: query sanitization is idempotent: replacing every character
outside the whitelist with a space, collapsing whitespace runs and
trimming, applied twice, equals one application — the first pass leaves
only whitelisted characters and single spaces, on which the second pass
is the identity. -/
theorem c9_sanitize_idempotent (q : String) :
    QueryValidator.sanitize (QueryValidator.sanitize q) = QueryValidator.sanitize q := by
  unfold QueryValidator.sanitize
  show String.mk (collapse (List.map replaceChar (collapse (List.map replaceChar q.toList)))) =
    String.mk (collapse (List.map replaceChar q.toList))
  rw [map_replaceChar_id (collapse (List.map replaceChar q.toList)) ?wl]
  · rw [collapse_idem]
  case wl =>
    intro c hc
    unfold collapse at hc
    rcases joinSp_mem (pySplit (List.map replaceChar q.toList)) c hc with hsp | ⟨w, hw, hcw⟩
    · rw [hsp]
      decide
    · rcases pySplitAux_mem (List.map replaceChar q.toList) [] w hw c hcw with hm | hm
      · rcases List.mem_map.mp hm with ⟨c0, _, hc0⟩
        rw [← hc0]
        exact replaceChar_whitelisted c0
      · exact absurd hm (List.not_mem_nil c)

end GeoStudio
